import Mathlib

/-!
Verification of the CAP-enforcement core of the caped-bucket relay.

The definitions below are a shallow embedding of `src/cap-enforcement.js`
together with the relay loop (`index.js`): events, grants, connections, the
AUTH handler, the commons registry, the write/read authorization checks, and
the scope/commons matching predicates.  External collaborators of the code
(signature verification `verifyEvent`, JSON parsing of the embedded CAP,
numeric string parsing, the clock) are modelled as parameters collected in
the `Externals` structure, mirroring the spec's treatment of them as opaque.

JavaScript conventions reflected in the embedding:
- a missing array element `t[1]` is `Option.none` (`t.get? 1`);
- truthiness of strings: `undefined` and the empty string are falsy, which is
  why several places turn `some ""` into the same branch as `none`;
- `Map`s are association lists where `set` prepends and `lookup` takes the
  first hit; `delete` filters all entries for the key.

String primitives (`endsWith`, `startsWith`, `slice`, `split`) are given
character-list implementations so that every definition evaluates by kernel
reduction on concrete inputs; on the ASCII strings this program manipulates
they agree with the JavaScript operations.
-/

/-- JavaScript `s.endsWith(t)`. -/
def strEndsWith (s t : String) : Bool :=
  List.isSuffixOf t.data s.data

/-- JavaScript `s.startsWith(t)`. -/
def strStartsWith (s t : String) : Bool :=
  List.isPrefixOf t.data s.data

/-- JavaScript `s.slice(0, -n)`: drop the last `n` characters. -/
def strDropRight (s : String) (n : Nat) : String :=
  String.mk (s.data.take (s.data.length - n))

/-- JavaScript `s.slice(0, n)`: take the first `n` characters. -/
def strTake (s : String) (n : Nat) : String :=
  String.mk (s.data.take n)

/-- Split a character list on a separator character; never returns `[]`. -/
def splitOnChar (c : Char) : List Char → List (List Char)
  | [] => [[]]
  | x :: xs =>
    match splitOnChar c xs with
    | [] => [[x]]
    | h :: t => if x = c then [] :: h :: t else (x :: h) :: t

/-- JavaScript `s.split(c)` for a one-character separator. -/
def jsSplit (s : String) (c : Char) : List String :=
  (splitOnChar c s.data).map String.mk

/-- A Nostr-shaped event: identifier, author pubkey, numeric kind, tag arrays.
Signature and content only reach the control flow modelled here through the
opaque verifier, but `id` is kept because the event store is keyed by it. -/
structure Event where
  id : String
  pubkey : String
  kind : Nat
  tags : List (List String)
deriving DecidableEq, Repr

/-- One authorization unit parsed from a CAP token
(`parseGrants` in cap-enforcement.js).  `action` is `tag[1]`, which JavaScript
leaves `undefined` when the tag is short, hence `Option`. -/
structure Grant where
  action : Option String
  scope : String
  commons : String
deriving DecidableEq, Repr

/-- Per-connection state (`connections` map entries in cap-enforcement.js). -/
structure Connection where
  pubkey : Option String
  grants : List Grant
  challenge : String
deriving DecidableEq, Repr

/-- The connections map: socketId to connection record, first hit wins. -/
abbrev ConnMap := List (String × Connection)

/-- JavaScript `connections.set(socketId, v)`: prepend, so `List.lookup` sees the new value. -/
def connSet (conns : ConnMap) (socketId : String) (v : Connection) : ConnMap :=
  (socketId, v) :: conns

/-- JavaScript `connections.get(socketId)`. -/
def connGet (conns : ConnMap) (socketId : String) : Option Connection :=
  List.lookup socketId conns

/-- External collaborators: signature verifier, CAP-JSON parser, integer
parser for the expiry tag, and the current clock in milliseconds. -/
structure Externals where
  verify : Event → Bool
  parseJSON : String → Option Event
  parseIntStr : String → Option Int
  nowMs : Nat

/-- AUTH event kind constant (NIP-42). -/
def AUTH_KIND : Nat := 22242

/-- Source function `matchesScope(scope, kind)` of cap-enforcement.js: wildcard, the
`kind:N` form, or the bare decimal number. -/
def matchesScope (scope : String) (kind : Nat) : Bool :=
  if scope = "*" then true
  else if scope = "kind:" ++ toString kind then true
  else if scope = toString kind then true
  else false

/-- Source function `matchesCommons(grantCommons, targetCommons)` of cap-enforcement.js:
wildcard, exact equality, or a `:*`-terminated pattern whose body (the
pattern with the final `*` removed, JavaScript `slice(0, -1)`) starts the
target. -/
def matchesCommons (grantCommons targetCommons : String) : Bool :=
  if grantCommons = "*" then true
  else if grantCommons = targetCommons then true
  else if strEndsWith grantCommons ":*" then
    strStartsWith targetCommons (strDropRight grantCommons 1)
  else false

/-- First tag whose name (element 0) is `name`:
`tags?.find(t => t[0] === name)` in JavaScript. -/
def findTagNamed (tags : List (List String)) (name : String) : Option (List String) :=
  tags.find? (fun t => t.get? 0 == some name)

/-- Value (element 1) of the first tag named `name`:
`tags?.find(t => t[0] === name)?.[1]`. -/
def tagValue (tags : List (List String)) (name : String) : Option String :=
  (findTagNamed tags name).bind (fun t => t.get? 1)

/-- JavaScript `o || "*"`: `undefined` and `""` are falsy and yield `"*"`. -/
def jsOrStar (o : Option String) : String :=
  match o with
  | none => "*"
  | some s => if s = "" then "*" else s

/-- Source function `parseGrants(cap)` of cap-enforcement.js: the commons reference is the
value of the first `a` tag (falsy becomes `"*"`), and each `cap`-named tag
contributes one grant `{action: tag[1], scope: tag[2] || "*", commons}`. -/
def parseGrants (cap : Event) : List Grant :=
  let commons := jsOrStar (tagValue cap.tags "a")
  (cap.tags.filter (fun t => t.get? 0 == some "cap")).map
    (fun t => { action := t.get? 1, scope := jsOrStar (t.get? 2), commons := commons })

/-- The challenge check in `handleAuth` step 3: a `challenge` tag must exist
and its value must equal the stored challenge
(`!challengeTag || challengeTag[1] !== conn.challenge` fails). -/
def challengeOk (authEvent : Event) (challenge : String) : Bool :=
  match findTagNamed authEvent.tags "challenge" with
  | none => false
  | some t => t.get? 1 == some challenge

/-- The CAP tag value that `handleAuth` treats as present: the `cap` tag's
value when it exists and is non-empty (`!capTag || !capTag[1]` takes the
no-CAP path otherwise). -/
def effectiveCap (authEvent : Event) : Option String :=
  match tagValue authEvent.tags "cap" with
  | none => none
  | some s => if s = "" then none else some s

/-- Grantee of a CAP token: value of its first `p` tag. -/
def granteeOf (cap : Event) : Option String :=
  tagValue cap.tags "p"

/-- Expiry tag value of a CAP token. -/
def expiryOf (cap : Event) : Option String :=
  tagValue cap.tags "expiry"

/-- Expiry test of `handleAuth` step 8: `expiry && parseInt(expiry) < Date.now() / 1000`.
A missing or empty tag is falsy; an unparsable value is `NaN` and every
comparison with `NaN` is false; otherwise the comparison
`n < nowMs / 1000` over the reals is exactly `n * 1000 < nowMs`. -/
def expiredCheck (ext : Externals) (expiry : Option String) : Bool :=
  match expiry with
  | none => false
  | some s =>
    if s = "" then false
    else
      match ext.parseIntStr s with
      | none => false
      | some n => n * 1000 < (ext.nowMs : Int)

/-- Outcome of `handleAuth`: the `{ ok, message }` object it returns. -/
structure AuthResult where
  ok : Bool
  message : String
deriving DecidableEq, Repr

/-- Source function `handleAuth(socketId, authEvent)` of cap-enforcement.js, with the
mutation of the `connections` map made explicit: returns the updated map and
the result object.  Mirrors the source's early-return chain step by step. -/
def handleAuth (ext : Externals) (conns : ConnMap) (socketId : String)
    (authEvent : Event) : ConnMap × AuthResult :=
  match connGet conns socketId with
  | none => (conns, ⟨false, "connection not initialized"⟩)
  | some conn =>
    if authEvent.kind ≠ AUTH_KIND then
      (conns, ⟨false, "invalid auth kind: expected " ++ toString AUTH_KIND ++
        ", got " ++ toString authEvent.kind⟩)
    else if ¬ ext.verify authEvent then
      (conns, ⟨false, "invalid auth signature"⟩)
    else if ¬ challengeOk authEvent conn.challenge then
      (conns, ⟨false, "invalid or missing challenge"⟩)
    else
      match effectiveCap authEvent with
      | none =>
        (connSet conns socketId
          { conn with pubkey := some authEvent.pubkey, grants := [] },
         ⟨true, "authenticated"⟩)
      | some capStr =>
        match ext.parseJSON capStr with
        | none => (conns, ⟨false, "invalid cap JSON"⟩)
        | some cap =>
          if ¬ ext.verify cap then
            (conns, ⟨false, "invalid cap signature"⟩)
          else if granteeOf cap ≠ some authEvent.pubkey then
            (conns, ⟨false, "grantee mismatch: cap=" ++
              (match granteeOf cap with
               | some g => strTake g 8
               | none => "undefined") ++
              ", auth=" ++ strTake authEvent.pubkey 8⟩)
          else if expiredCheck ext (expiryOf cap) then
            (conns, ⟨false, "cap expired"⟩)
          else
            (connSet conns socketId
              { conn with pubkey := some authEvent.pubkey,
                          grants := parseGrants cap },
             ⟨true, "authenticated"⟩)

/-- Commons identifier synthesized at registration: `39002:<pubkey>:<d>`. -/
def commonsRefOf (pk d : String) : String :=
  "39002:" ++ pk ++ ":" ++ d

/-- Value of the first `d` tag of an event. -/
def dTagValue (event : Event) : Option String :=
  tagValue event.tags "d"

/-- Source function `processEvent(event)` of cap-enforcement.js: a kind-39002 event whose
first `d` tag carries a truthy (non-empty) value registers
`39002:<pubkey>:<d>` into the enforced-commons set. -/
def processEvent (event : Event) (enforced : List String) : List String :=
  if event.kind = 39002 then
    match dTagValue event with
    | none => enforced
    | some d => if d = "" then enforced else commonsRefOf event.pubkey d :: enforced
  else enforced

/-- The commons tag lookup shared by `canWrite` and `canRead`:
`event.tags?.find(t => t[0] === 'a' && t[1]?.startsWith('39002:'))?.[1]`. -/
def findCommonsTag (tags : List (List String)) : Option String :=
  (tags.find? (fun t =>
      t.get? 0 == some "a" &&
      (match t.get? 1 with
       | none => false
       | some v => strStartsWith v "39002:"))).bind
    (fun t => t.get? 1)

/-- Owner identity of a commons reference: `commons.split(':')[1]`. -/
def commonsOwner (commons : String) : Option String :=
  (jsSplit commons ':').get? 1

/-- Outcome of `canWrite`: the `{ ok, reason? }` object it returns. -/
structure WriteResult where
  ok : Bool
  reason : Option String
deriving DecidableEq, Repr

/-- Source function `canWrite(socketId, event)` of cap-enforcement.js.  The authentication
test is JavaScript `!conn || !conn.pubkey`, so a connection whose stored
pubkey is the empty string also counts as unauthenticated. -/
def canWrite (conns : ConnMap) (enforced : List String) (socketId : String)
    (event : Event) : WriteResult :=
  match findCommonsTag event.tags with
  | none => ⟨true, none⟩
  | some commons =>
    if ¬ enforced.contains commons then ⟨true, none⟩
    else if commonsOwner commons == some event.pubkey then ⟨true, none⟩
    else
      match connGet conns socketId with
      | none => ⟨false, some "auth-required: authentication required"⟩
      | some conn =>
        match conn.pubkey with
        | none => ⟨false, some "auth-required: authentication required"⟩
        | some pk =>
          if pk = "" then ⟨false, some "auth-required: authentication required"⟩
          else if event.pubkey ≠ pk then
            ⟨false, some ("blocked: pubkey mismatch (auth=" ++ strTake pk 8 ++
              ", event=" ++ strTake event.pubkey 8 ++ ")")⟩
          else if conn.grants.any (fun g =>
              g.action == some "publish" &&
              matchesScope g.scope event.kind &&
              matchesCommons g.commons commons) then
            ⟨true, none⟩
          else
            ⟨false, some ("blocked: no publish grant for kind:" ++
              toString event.kind ++ " in " ++ commons)⟩

/-- Source function `canRead(socketId, event)` of cap-enforcement.js. -/
def canRead (conns : ConnMap) (enforced : List String) (socketId : String)
    (event : Event) : Bool :=
  match findCommonsTag event.tags with
  | none => true
  | some commons =>
    if ¬ enforced.contains commons then true
    else
      match connGet conns socketId with
      | none => false
      | some conn =>
        match conn.pubkey with
        | none => false
        | some pk =>
          if pk = "" then false
          else conn.grants.any (fun g =>
            (g.action == some "access" || g.action == some "publish") &&
            matchesCommons g.commons commons)

/-- The authenticated identity a connection effectively has in the access
checks: JavaScript `conn && conn.pubkey` truthiness, so a missing
connection, a null pubkey and an empty-string pubkey all count as
unauthenticated. -/
def connAuthPubkey (conns : ConnMap) (socketId : String) : Option String :=
  match connGet conns socketId with
  | none => none
  | some conn =>
    match conn.pubkey with
    | none => none
    | some pk => if pk = "" then none else some pk

/-- Messages the relay can send to a client (index.js). -/
inductive OutMsg where
  | auth (challenge : String)
  | ok (id : String) (accepted : Bool) (message : String)
  | event (lsubid : String) (ev : Event)
  | eose (lsubid : String)
deriving DecidableEq, Repr

/-- The live-subscription callback built per REQ (`makecb` in index.js):
deliver the event when the filters match and `canRead` allows it; a read
denial produces no output at all. -/
def makecb (mf : List String → Event → Bool) (conns : ConnMap)
    (enforced : List String) (socketId lsubid : String) (filters : List String)
    (event : Event) : List OutMsg :=
  if mf filters event then
    if canRead conns enforced socketId event then [OutMsg.event lsubid event]
    else []
  else []

/-- One registered subscription (a REQ), as an explicit record. -/
structure Subscription where
  socketId : String
  lsubid : String
  filters : List String
deriving DecidableEq, Repr

/-- The relay's process-wide mutable state: the per-connection records and the
enforced-commons set of cap-enforcement.js, plus the event store and the
global subscription table of index.js. -/
structure RelayState where
  connections : ConnMap
  enforced : List String
  events : List (String × Event)
  gsubs : List (String × Subscription)

/-- Every state-changing operation of the relay process. -/
inductive RelayAction where
  | connect (socketId challenge : String)
  | disconnect (socketId : String)
  | msgAuth (socketId : String) (authEvent : Event)
  | msgEvent (socketId : String) (event : Event)
  | msgReq (socketId lsubid : String) (filters : List String)
  | msgClose (socketId lsubid : String)
  | clearTimer

/-- State transition of the relay (index.js handlers plus the eviction
timer).  `connect` runs `initConnection`; `disconnect` removes the
connection and its subscriptions; `msgAuth` runs `handleAuth`; `msgEvent`
runs the EVENT branch (signature check, `canWrite`, `processEvent`, store);
`msgReq`/`msgClose` maintain the subscription table; `clearTimer` is the
periodic `events.clear()`. -/
def step (ext : Externals) (s : RelayState) (a : RelayAction) : RelayState :=
  match a with
  | .connect socketId challenge =>
    { s with connections :=
        connSet s.connections socketId ⟨none, [], challenge⟩ }
  | .disconnect socketId =>
    { s with
        connections := s.connections.filter (fun p => p.1 ≠ socketId),
        gsubs := s.gsubs.filter (fun p => p.2.socketId ≠ socketId) }
  | .msgAuth socketId authEvent =>
    { s with connections := (handleAuth ext s.connections socketId authEvent).1 }
  | .msgEvent socketId event =>
    if ext.verify event && (canWrite s.connections s.enforced socketId event).ok then
      { s with
          enforced := processEvent event s.enforced,
          events := (event.id, event) :: s.events }
    else s
  | .msgReq socketId lsubid filters =>
    { s with gsubs :=
        (socketId ++ ":" ++ lsubid, ⟨socketId, lsubid, filters⟩) :: s.gsubs }
  | .msgClose socketId lsubid =>
    { s with gsubs := s.gsubs.filter (fun p => p.1 ≠ socketId ++ ":" ++ lsubid) }
  | .clearTimer => { s with events := [] }

/-- C5: ScopeMatches(scope, kind) is true exactly when scope is the wildcard,
the bare decimal rendering of kind, or the string kind:N; in particular the
three positive examples hold and ScopeMatches("kind:1", 2) fails. -/
theorem matchesScope_spec :
    (∀ (scope : String) (kind : Nat),
      matchesScope scope kind = true ↔
        (scope = "*" ∨ scope = toString kind ∨ scope = "kind:" ++ toString kind))
    ∧ matchesScope "kind:1" 1 = true
    ∧ matchesScope "1" 1 = true
    ∧ matchesScope "*" 1 = true
    ∧ matchesScope "kind:1" 2 = false := by
  refine ⟨?_, by decide, by decide, by decide, by decide⟩
  intro scope kind
  unfold matchesScope
  split_ifs with h1 h2 h3 <;> simp_all

/-- C4: CommonsMatches(grantRef, targetRef) is true exactly when grantRef is
the wildcard, equals targetRef, or ends in ":*" and targetRef starts with
grantRef minus its trailing "*"; the three cited examples behave as stated. -/
theorem matchesCommons_spec :
    (∀ (g t : String),
      matchesCommons g t = true ↔
        (g = "*" ∨ g = t ∨
          (strEndsWith g ":*" = true ∧ strStartsWith t (strDropRight g 1) = true)))
    ∧ matchesCommons "39002:OWNER:*" "39002:OWNER:general" = true
    ∧ matchesCommons "39002:OWNER:general" "39002:OWNER:other" = false
    ∧ (∀ t : String, matchesCommons "*" t = true) := by
  refine ⟨?_, by decide, by decide, fun t => by simp [matchesCommons]⟩
  intro g t
  unfold matchesCommons
  split_ifs with h1 h2 h3 <;> simp_all

theorem connGet_connSet_self (conns : ConnMap) (socketId : String) (v : Connection) :
    connGet (connSet conns socketId v) socketId = some v := by
  simp [connGet, connSet, List.lookup]

theorem handleAuth_ok_inv (ext : Externals) (conns : ConnMap) (socketId : String)
    (ev : Event) (conns' : ConnMap) (r : AuthResult)
    (h : handleAuth ext conns socketId ev = (conns', r)) (hok : r.ok = true) :
    ∃ conn, connGet conns socketId = some conn ∧
      ev.kind = AUTH_KIND ∧ ext.verify ev = true ∧
      challengeOk ev conn.challenge = true ∧ r = ⟨true, "authenticated"⟩ ∧
      ((effectiveCap ev = none ∧
        conns' = connSet conns socketId
          { conn with pubkey := some ev.pubkey, grants := [] }) ∨
       (∃ s cap, effectiveCap ev = some s ∧ ext.parseJSON s = some cap ∧
        ext.verify cap = true ∧ granteeOf cap = some ev.pubkey ∧
        expiredCheck ext (expiryOf cap) = false ∧
        conns' = connSet conns socketId
          { conn with pubkey := some ev.pubkey, grants := parseGrants cap })) := by
  unfold handleAuth at h
  split at h
  · injection h with h1 h2; subst h1; subst h2; exact Bool.noConfusion hok
  · rename_i conn hc
    split_ifs at h with hk hv hch
    all_goals try (injection h with h1 h2; subst h1; subst h2; exact Bool.noConfusion hok)
    split at h
    · rename_i hcap
      injection h with h1 h2; subst h1; subst h2
      refine ⟨conn, hc, ?_, ?_, ?_, rfl, Or.inl ⟨hcap, rfl⟩⟩ <;> simp_all
    · rename_i capStr hcap
      split at h
      · injection h with h1 h2; subst h1; subst h2; exact Bool.noConfusion hok
      · rename_i cap hp
        split_ifs at h with hcv hg hex
        all_goals try (injection h with h1 h2; subst h1; subst h2; exact Bool.noConfusion hok)
        injection h with h1 h2; subst h1; subst h2
        refine ⟨conn, hc, ?_, ?_, ?_, rfl,
          Or.inr ⟨capStr, cap, hcap, hp, ?_, ?_, ?_, rfl⟩⟩ <;> simp_all

/-- C10: a failed AUTH is atomic: whenever `handleAuth` returns `ok = false`,
the connections map — and with it the connection's identity, grants and
challenge — is exactly what it was before the call. -/
theorem handleAuth_failure_atomic (ext : Externals) (conns : ConnMap)
    (socketId : String) (ev : Event) (conns' : ConnMap) (r : AuthResult)
    (h : handleAuth ext conns socketId ev = (conns', r)) (hfail : r.ok = false) :
    conns' = conns := by
  unfold handleAuth at h
  split at h
  · injection h with h1 h2; exact h1.symm
  · split_ifs at h with hk hv hch
    all_goals try (injection h with h1 h2; exact h1.symm)
    split at h
    · injection h with h1 h2; subst h2; simp at hfail
    · split at h
      · injection h with h1 h2; exact h1.symm
      · split_ifs at h with hcv hg hex
        all_goals try (injection h with h1 h2; exact h1.symm)
        injection h with h1 h2; subst h2; simp at hfail

theorem strStartsWith_append (s rest t : String) (h : strStartsWith s t = true) :
    strStartsWith (s ++ rest) t = true := by
  unfold strStartsWith at h ⊢
  rw [String.data_append, List.isPrefixOf_iff_prefix] at *
  exact h.trans ( List.prefix_append _ _)

theorem handleAuth_success_nocap (ext : Externals) (conns : ConnMap)
    (socketId : String) (ev : Event) (conn : Connection)
    (hc : connGet conns socketId = some conn) (hk : ev.kind = AUTH_KIND)
    (hv : ext.verify ev = true) (hch : challengeOk ev conn.challenge = true)
    (hcap : effectiveCap ev = none) :
    handleAuth ext conns socketId ev =
      (connSet conns socketId { conn with pubkey := some ev.pubkey, grants := [] },
       ⟨true, "authenticated"⟩) := by
  simp [handleAuth, hc, hk, hv, hch, hcap]

theorem handleAuth_success_cap (ext : Externals) (conns : ConnMap)
    (socketId : String) (ev : Event) (conn : Connection) (capStr : String)
    (cap : Event)
    (hc : connGet conns socketId = some conn) (hk : ev.kind = AUTH_KIND)
    (hv : ext.verify ev = true) (hch : challengeOk ev conn.challenge = true)
    (hcap : effectiveCap ev = some capStr) (hp : ext.parseJSON capStr = some cap)
    (hcv : ext.verify cap = true) (hg : granteeOf cap = some ev.pubkey)
    (hex : expiredCheck ext (expiryOf cap) = false) :
    handleAuth ext conns socketId ev =
      (connSet conns socketId
        { conn with pubkey := some ev.pubkey, grants := parseGrants cap },
       ⟨true, "authenticated"⟩) := by
  simp [handleAuth, hc, hk, hv, hch, hcap, hp, hcv, hg, hex]

theorem handleAuth_expired (ext : Externals) (conns : ConnMap)
    (socketId : String) (ev : Event) (conn : Connection) (capStr : String)
    (cap : Event)
    (hc : connGet conns socketId = some conn) (hk : ev.kind = AUTH_KIND)
    (hv : ext.verify ev = true) (hch : challengeOk ev conn.challenge = true)
    (hcap : effectiveCap ev = some capStr) (hp : ext.parseJSON capStr = some cap)
    (hcv : ext.verify cap = true) (hg : granteeOf cap = some ev.pubkey)
    (hex : expiredCheck ext (expiryOf cap) = true) :
    handleAuth ext conns socketId ev = (conns, ⟨false, "cap expired"⟩) := by
  simp [handleAuth, hc, hk, hv, hch, hcap, hp, hcv, hg, hex]

theorem processEvent_mem_iff (event : Event) (enforced : List String)
    (ref : String) :
    ref ∈ processEvent event enforced ↔
      (ref ∈ enforced ∨
        (event.kind = 39002 ∧ ∃ d, dTagValue event = some d ∧ d ≠ "" ∧
          ref = commonsRefOf event.pubkey d)) := by
  unfold processEvent
  by_cases hk : event.kind = 39002
  · rcases hd : dTagValue event with _ | d
    · simp [hk, hd]
    · by_cases hde : d = ""
      · simp [hk, hd, hde]
      · simp [hk, hd, hde, List.mem_cons]
        tauto
  · simp [hk]

/-- C7: after any successful AUTH, the connection's record holds the AUTH
event's author as identity and exactly the grants parsed from that AUTH
message's CAP token — or the empty list when no CAP was presented — as a
full replacement that never merges with grants from earlier AUTHs. -/
theorem handleAuth_grants_replaced (ext : Externals) (conns : ConnMap)
    (socketId : String) (ev : Event) (conns' : ConnMap) (r : AuthResult)
    (h : handleAuth ext conns socketId ev = (conns', r)) (hok : r.ok = true) :
    ∃ conn conn', connGet conns socketId = some conn ∧
      connGet conns' socketId = some conn' ∧
      conn'.pubkey = some ev.pubkey ∧ conn'.challenge = conn.challenge ∧
      ((effectiveCap ev = none ∧ conn'.grants = []) ∨
       (∃ s cap, effectiveCap ev = some s ∧ ext.parseJSON s = some cap ∧
         conn'.grants = parseGrants cap)) := by
  obtain ⟨conn, hc, -, -, -, -, hcase⟩ :=
    handleAuth_ok_inv ext conns socketId ev conns' r h hok
  rcases hcase with ⟨hcap, rfl⟩ | ⟨s, cap, hcap, hp, -, -, -, rfl⟩
  · exact ⟨conn, _, hc, connGet_connSet_self _ _ _, rfl, rfl, Or.inl ⟨hcap, rfl⟩⟩
  · exact ⟨conn, _, hc, connGet_connSet_self _ _ _, rfl, rfl,
      Or.inr ⟨s, cap, hcap, hp, rfl⟩⟩

/-- C9: a successful AUTH leaves the stored challenge unchanged, and a second
AUTH carrying the identical challenge value (the very same AUTH event, under
the same externals) succeeds again on the same connection. -/
theorem handleAuth_challenge_reusable (ext : Externals) (conns : ConnMap)
    (socketId : String) (ev : Event) (conns' : ConnMap) (r : AuthResult)
    (h : handleAuth ext conns socketId ev = (conns', r)) (hok : r.ok = true) :
    (∃ conn conn', connGet conns socketId = some conn ∧
      connGet conns' socketId = some conn' ∧ conn'.challenge = conn.challenge) ∧
    (handleAuth ext conns' socketId ev).2.ok = true := by
  obtain ⟨conn, hc, hk, hv, hch, -, hcase⟩ :=
    handleAuth_ok_inv ext conns socketId ev conns' r h hok
  rcases hcase with ⟨hcap, rfl⟩ | ⟨s, cap, hcap, hp, hcv, hg, hex, rfl⟩
  · refine ⟨⟨conn, _, hc, connGet_connSet_self _ _ _, rfl⟩, ?_⟩
    rw [handleAuth_success_nocap ext _ socketId ev
      ⟨some ev.pubkey, [], conn.challenge⟩
      (connGet_connSet_self _ _ _) hk hv hch hcap]
  · refine ⟨⟨conn, _, hc, connGet_connSet_self _ _ _, rfl⟩, ?_⟩
    rw [handleAuth_success_cap ext _ socketId ev
      ⟨some ev.pubkey, parseGrants cap, conn.challenge⟩ s cap
      (connGet_connSet_self _ _ _) hk hv hch hcap hp hcv hg hex]

/-- C8: with every earlier AUTH check passing, a CAP whose expiry tag holds a
numeric value strictly below the current time (the comparison
n < nowMs / 1000 over the reals, i.e. n * 1000 < nowMs) fails with
"cap expired"; an absent expiry tag, or a numeric value at or above the
current time, passes the check and the AUTH succeeds. -/
theorem handleAuth_expiry_spec (ext : Externals) (conns : ConnMap)
    (socketId : String) (ev : Event) (conn : Connection) (capStr : String)
    (cap : Event)
    (hc : connGet conns socketId = some conn) (hk : ev.kind = AUTH_KIND)
    (hv : ext.verify ev = true) (hch : challengeOk ev conn.challenge = true)
    (hcap : effectiveCap ev = some capStr) (hp : ext.parseJSON capStr = some cap)
    (hcv : ext.verify cap = true) (hg : granteeOf cap = some ev.pubkey) :
    (∀ es n, expiryOf cap = some es → es ≠ "" → ext.parseIntStr es = some n →
      n * 1000 < (ext.nowMs : Int) →
      handleAuth ext conns socketId ev = (conns, ⟨false, "cap expired"⟩)) ∧
    (expiryOf cap = none → (handleAuth ext conns socketId ev).2.ok = true) ∧
    (∀ es n, expiryOf cap = some es → ext.parseIntStr es = some n →
      (ext.nowMs : Int) ≤ n * 1000 →
      (handleAuth ext conns socketId ev).2.ok = true) := by
  refine ⟨?_, ?_, ?_⟩
  · intro es n hes hne hn hlt
    apply handleAuth_expired ext conns socketId ev conn capStr cap
      hc hk hv hch hcap hp hcv hg
    simp [expiredCheck, hes, hne, hn, hlt]
  · intro hes
    rw [handleAuth_success_cap ext conns socketId ev conn capStr cap
      hc hk hv hch hcap hp hcv hg (by simp [expiredCheck, hes])]
  · intro es n hes hn hge
    have hexf : expiredCheck ext (expiryOf cap) = false := by
      have hnlt : ¬ (n * 1000 < (ext.nowMs : Int)) := by omega
      by_cases he : es = ""
      · simp [expiredCheck, hes, he]
      · simp [expiredCheck, hes, he, hn, hnlt]
    rw [handleAuth_success_cap ext conns socketId ev conn capStr cap
      hc hk hv hch hcap hp hcv hg hexf]

/-- C6: commons enforcement is monotonic: no operation of the relay process
(connect, disconnect, AUTH handling, event publishing, REQ/CLOSE
subscription handling, or the periodic event-store clear) ever removes a
reference from the enforced set. -/
theorem step_enforced_monotone (ext : Externals) (s : RelayState)
    (a : RelayAction) (ref : String) (h : ref ∈ s.enforced) :
    ref ∈ (step ext s a).enforced := by
  cases a with
  | connect sid ch => simpa [step] using h
  | disconnect sid => simpa [step] using h
  | msgAuth sid ev => simpa [step] using h
  | msgEvent sid ev =>
    by_cases hw : (ext.verify ev &&
        (canWrite s.connections s.enforced sid ev).ok) = true
    · simp only [step, if_pos hw]
      exact (processEvent_mem_iff ev s.enforced ref).mpr (Or.inl h)
    · simpa [step, hw] using h
  | msgReq sid lsubid filters => simpa [step] using h
  | msgClose sid lsubid => simpa [step] using h
  | clearTimer => simpa [step] using h

/-- C1: for an event tagged with an enforced commons, the owner identity (the
second colon-delimited field of the commons reference) may always write, with
or without authentication; a non-owner on an unauthenticated connection is
rejected with the "auth-required:"-prefixed reason; and a commons becomes
enforced by processEvent exactly when a kind-39002 event carrying a d tag
with a truthy (non-empty) value is accepted, registered as
39002:<author>:<dTagValue>. -/
theorem canWrite_owner_and_registration (conns : ConnMap)
    (enforced : List String) (socketId : String) (event : Event)
    (commons : String)
    (hfind : findCommonsTag event.tags = some commons)
    (henf : enforced.contains commons = true) :
    (commonsOwner commons = some event.pubkey →
      canWrite conns enforced socketId event = ⟨true, none⟩) ∧
    (commonsOwner commons ≠ some event.pubkey →
      connAuthPubkey conns socketId = none →
      canWrite conns enforced socketId event =
        ⟨false, some "auth-required: authentication required"⟩ ∧
      strStartsWith "auth-required: authentication required"
        "auth-required:" = true) ∧
    (∀ (ev2 : Event) (enf2 : List String) (ref : String),
      ref ∈ processEvent ev2 enf2 ↔
        (ref ∈ enf2 ∨ (ev2.kind = 39002 ∧ ∃ d, dTagValue ev2 = some d ∧
          d ≠ "" ∧ ref = commonsRefOf ev2.pubkey d))) := by
  have hmem : commons ∈ enforced := by simpa using henf
  refine ⟨?_, ?_, fun ev2 enf2 ref => processEvent_mem_iff ev2 enf2 ref⟩
  · intro howner
    simp [canWrite, hfind, henf, hmem, howner]
  · intro howner hunauth
    have hob : (commonsOwner commons == some event.pubkey) = false :=
      beq_eq_false_iff_ne.mpr howner
    refine ⟨?_, by decide⟩
    unfold connAuthPubkey at hunauth
    rcases hcg : connGet conns socketId with _ | conn
    · simp [canWrite, hfind, henf, hmem, hob, hcg]
    · simp only [hcg] at hunauth
      rcases hpk : conn.pubkey with _ | pk
      · simp [canWrite, hfind, henf, hmem, hob, hcg, hpk]
      · simp only [hpk] at hunauth
        by_cases hep : pk = ""
        · simp [canWrite, hfind, henf, hmem, hob, hcg, hpk, hep]
        · simp [hep] at hunauth

/-- C2: for a connection authenticated as the event's author and an event in
an enforced commons owned by someone else, the write is allowed exactly when
some grant has action publish, a scope matching the event's kind and a
commons reference matching the event's commons; otherwise the write is
rejected with a "blocked:"-prefixed reason. -/
theorem canWrite_grant_spec (conns : ConnMap) (enforced : List String)
    (socketId : String) (event : Event) (commons : String) (conn : Connection)
    (hfind : findCommonsTag event.tags = some commons)
    (henf : enforced.contains commons = true)
    (howner : commonsOwner commons ≠ some event.pubkey)
    (hcg : connGet conns socketId = some conn)
    (hpk : conn.pubkey = some event.pubkey) (hne : event.pubkey ≠ "") :
    ((canWrite conns enforced socketId event).ok = true ↔
      ∃ g ∈ conn.grants, g.action = some "publish" ∧
        matchesScope g.scope event.kind = true ∧
        matchesCommons g.commons commons = true) ∧
    ((canWrite conns enforced socketId event).ok = false →
      ∃ reason, (canWrite conns enforced socketId event).reason = some reason ∧
        strStartsWith reason "blocked:" = true) := by
  have hmem : commons ∈ enforced := by simpa using henf
  have hob : (commonsOwner commons == some event.pubkey) = false :=
    beq_eq_false_iff_ne.mpr howner
  by_cases hex : ∃ g ∈ conn.grants,
      (g.action = some "publish" ∧ matchesScope g.scope event.kind = true) ∧
      matchesCommons g.commons commons = true
  · have hcw : canWrite conns enforced socketId event = ⟨true, none⟩ := by
      simp [canWrite, hfind, henf, hmem, hob, hcg, hpk, hne, hex]
    rw [hcw]
    constructor
    · constructor
      · intro _
        obtain ⟨g, hg, ⟨ha, hs⟩, hcm⟩ := hex
        exact ⟨g, hg, ha, hs, hcm⟩
      · intro _
        rfl
    · intro hcon
      exact absurd hcon (by simp)
  · have hcw : canWrite conns enforced socketId event =
        ⟨false, some ("blocked: no publish grant for kind:" ++
          toString event.kind ++ " in " ++ commons)⟩ := by
      simp [canWrite, hfind, henf, hmem, hob, hcg, hpk, hne, hex]
    rw [hcw]
    constructor
    · constructor
      · intro hcon
        exact absurd hcon (by simp)
      · intro hex2
        exfalso
        obtain ⟨g, hg, ha, hs, hcm⟩ := hex2
        exact hex ⟨g, hg, ⟨ha, hs⟩, hcm⟩
    · intro _
      exact ⟨_, rfl, strStartsWith_append _ _ _ (strStartsWith_append _ _ _
        (strStartsWith_append _ _ _ (by decide)))⟩

/-- C3: for an event tagged with an enforced commons, a read is delivered
exactly when the connection is authenticated and holds a grant with action
access or publish whose commons reference matches the event's commons — the
grant's scope and the event's kind play no role — and a denied read produces
no output at all from the live-subscription callback. -/
theorem canRead_spec (mf : List String → Event → Bool) (conns : ConnMap)
    (enforced : List String) (socketId lsubid : String) (filters : List String)
    (event : Event) (commons : String)
    (hfind : findCommonsTag event.tags = some commons)
    (henf : enforced.contains commons = true) :
    (canRead conns enforced socketId event = true ↔
      ∃ conn pk, connGet conns socketId = some conn ∧ conn.pubkey = some pk ∧
        pk ≠ "" ∧ ∃ g ∈ conn.grants,
          (g.action = some "access" ∨ g.action = some "publish") ∧
          matchesCommons g.commons commons = true) ∧
    (canRead conns enforced socketId event = false →
      makecb mf conns enforced socketId lsubid filters event = []) := by
  have hmem : commons ∈ enforced := by simpa using henf
  constructor
  · rcases hcg : connGet conns socketId with _ | conn
    · simp [canRead, hfind, henf, hmem, hcg]
    · rcases hpk : conn.pubkey with _ | pk
      · simp [canRead, hfind, henf, hmem, hcg, hpk]
      · by_cases hep : pk = ""
        · simp [canRead, hfind, henf, hmem, hcg, hpk, hep]
        · simp [canRead, hfind, henf, hmem, hcg, hpk, hep, List.any_eq_true,
            Bool.and_eq_true, Bool.or_eq_true, beq_iff_eq]
          try tauto
  · intro hfr
    by_cases hmf : mf filters event = true
    · simp [makecb, hmf, hfr]
    · simp [makecb, hmf]

theorem matchesScope_spec_witness : matchesScope "kind:7" 7 = true :=
  (matchesScope_spec.1 "kind:7" 7).mpr (Or.inr (Or.inr (by decide)))

theorem matchesCommons_spec_witness : matchesCommons "*" "39002:Z:q" = true :=
  matchesCommons_spec.2.2.2 "39002:Z:q"

theorem canWrite_owner_and_registration_witness :
    canWrite [] ["39002:A:g"] "s1"
      ⟨"e1", "A", 1, [["a", "39002:A:g"]]⟩ = ⟨true, none⟩ ∧
    canWrite [] ["39002:A:g"] "s1"
      ⟨"e2", "B", 1, [["a", "39002:A:g"]]⟩ =
      ⟨false, some "auth-required: authentication required"⟩ ∧
    "39002:A:g" ∈ processEvent ⟨"e0", "A", 39002, [["d", "g"]]⟩ [] := by
  refine ⟨?_, ?_, ?_⟩
  · exact (canWrite_owner_and_registration [] ["39002:A:g"] "s1"
      ⟨"e1", "A", 1, [["a", "39002:A:g"]]⟩ "39002:A:g"
      (by decide) (by decide)).1 (by decide)
  · exact ((canWrite_owner_and_registration [] ["39002:A:g"] "s1"
      ⟨"e2", "B", 1, [["a", "39002:A:g"]]⟩ "39002:A:g"
      (by decide) (by decide)).2.1 (by decide) (by decide)).1
  · exact ((canWrite_owner_and_registration [] ["39002:A:g"] "s1"
      ⟨"e1", "A", 1, [["a", "39002:A:g"]]⟩ "39002:A:g"
      (by decide) (by decide)).2.2 ⟨"e0", "A", 39002, [["d", "g"]]⟩ []
      "39002:A:g").mpr
      (Or.inr ⟨rfl, "g", by decide, by decide, by decide⟩)

theorem canWrite_grant_spec_witness :
    (canWrite [("s1", ⟨some "B", [⟨some "publish", "kind:1", "39002:A:*"⟩], "ch"⟩)]
      ["39002:A:g"] "s1" ⟨"e1", "B", 1, [["a", "39002:A:g"]]⟩).ok = true ∧
    (canWrite [("s1", ⟨some "B", [⟨some "publish", "kind:1", "39002:A:*"⟩], "ch"⟩)]
      ["39002:A:g"] "s1" ⟨"e2", "B", 2, [["a", "39002:A:g"]]⟩).ok = false := by
  constructor
  · exact (canWrite_grant_spec
      [("s1", ⟨some "B", [⟨some "publish", "kind:1", "39002:A:*"⟩], "ch"⟩)]
      ["39002:A:g"] "s1" ⟨"e1", "B", 1, [["a", "39002:A:g"]]⟩ "39002:A:g"
      ⟨some "B", [⟨some "publish", "kind:1", "39002:A:*"⟩], "ch"⟩
      (by decide) (by decide) (by decide) (by decide) (by decide)
      (by decide)).1.mpr
      ⟨⟨some "publish", "kind:1", "39002:A:*"⟩, by decide, by decide,
        by decide, by decide⟩
  · have t2 := (canWrite_grant_spec
      [("s1", ⟨some "B", [⟨some "publish", "kind:1", "39002:A:*"⟩], "ch"⟩)]
      ["39002:A:g"] "s1" ⟨"e2", "B", 2, [["a", "39002:A:g"]]⟩ "39002:A:g"
      ⟨some "B", [⟨some "publish", "kind:1", "39002:A:*"⟩], "ch"⟩
      (by decide) (by decide) (by decide) (by decide) (by decide)
      (by decide)).1
    cases h : (canWrite
      [("s1", ⟨some "B", [⟨some "publish", "kind:1", "39002:A:*"⟩], "ch"⟩)]
      ["39002:A:g"] "s1" ⟨"e2", "B", 2, [["a", "39002:A:g"]]⟩).ok with
    | false => rfl
    | true => exact absurd (t2.mp h) (by decide)

theorem canRead_spec_witness :
    canRead [("s1", ⟨some "B", [⟨some "access", "*", "39002:A:*"⟩], "ch"⟩)]
      ["39002:A:g"] "s1" ⟨"e1", "X", 5, [["a", "39002:A:g"]]⟩ = true ∧
    makecb (fun _ _ => true) [] ["39002:A:g"] "s2" "sub1" []
      ⟨"e1", "X", 5, [["a", "39002:A:g"]]⟩ = [] := by
  constructor
  · exact (canRead_spec (fun _ _ => true)
      [("s1", ⟨some "B", [⟨some "access", "*", "39002:A:*"⟩], "ch"⟩)]
      ["39002:A:g"] "s1" "sub1" [] ⟨"e1", "X", 5, [["a", "39002:A:g"]]⟩
      "39002:A:g" (by decide) (by decide)).1.mpr
      ⟨⟨some "B", [⟨some "access", "*", "39002:A:*"⟩], "ch"⟩, "B",
        by decide, by decide, by decide,
        ⟨some "access", "*", "39002:A:*"⟩, by decide, Or.inl rfl, by decide⟩
  · exact (canRead_spec (fun _ _ => true) [] ["39002:A:g"] "s2" "sub1" []
      ⟨"e1", "X", 5, [["a", "39002:A:g"]]⟩ "39002:A:g"
      (by decide) (by decide)).2 (by decide)

theorem step_enforced_monotone_witness :
    "39002:A:g" ∈ (step ⟨fun _ => true, fun _ => none, fun _ => none, 0⟩
      ⟨[], ["39002:A:g"], [], []⟩ RelayAction.clearTimer).enforced :=
  step_enforced_monotone ⟨fun _ => true, fun _ => none, fun _ => none, 0⟩
    ⟨[], ["39002:A:g"], [], []⟩ RelayAction.clearTimer "39002:A:g" (by decide)

theorem handleAuth_grants_replaced_witness :
    ∃ conn conn',
      connGet [("s1", ⟨none, [], "ch"⟩)] "s1" = some conn ∧
      connGet (connSet [("s1", ⟨none, [], "ch"⟩)] "s1" ⟨some "PK", [], "ch"⟩)
        "s1" = some conn' ∧
      conn'.pubkey = some (Event.pubkey ⟨"a1", "PK", 22242,
        [["challenge", "ch"]]⟩) ∧
      conn'.challenge = conn.challenge ∧
      ((effectiveCap ⟨"a1", "PK", 22242, [["challenge", "ch"]]⟩ = none ∧
        conn'.grants = []) ∨
       (∃ s cap, effectiveCap ⟨"a1", "PK", 22242, [["challenge", "ch"]]⟩ =
          some s ∧
        (fun (_ : String) => (none : Option Event)) s = some cap ∧
        conn'.grants = parseGrants cap)) :=
  handleAuth_grants_replaced ⟨fun _ => true, fun _ => none, fun _ => none, 0⟩
    [("s1", ⟨none, [], "ch"⟩)] "s1" ⟨"a1", "PK", 22242, [["challenge", "ch"]]⟩
    (connSet [("s1", ⟨none, [], "ch"⟩)] "s1" ⟨some "PK", [], "ch"⟩)
    ⟨true, "authenticated"⟩ (by decide) rfl

theorem handleAuth_challenge_reusable_witness :
    (∃ conn conn',
      connGet [("s1", ⟨none, [], "ch"⟩)] "s1" = some conn ∧
      connGet (connSet [("s1", ⟨none, [], "ch"⟩)] "s1" ⟨some "PK", [], "ch"⟩)
        "s1" = some conn' ∧
      conn'.challenge = conn.challenge) ∧
    (handleAuth ⟨fun _ => true, fun _ => none, fun _ => none, 0⟩
      (connSet [("s1", ⟨none, [], "ch"⟩)] "s1" ⟨some "PK", [], "ch"⟩) "s1"
      ⟨"a1", "PK", 22242, [["challenge", "ch"]]⟩).2.ok = true :=
  handleAuth_challenge_reusable ⟨fun _ => true, fun _ => none, fun _ => none, 0⟩
    [("s1", ⟨none, [], "ch"⟩)] "s1" ⟨"a1", "PK", 22242, [["challenge", "ch"]]⟩
    (connSet [("s1", ⟨none, [], "ch"⟩)] "s1" ⟨some "PK", [], "ch"⟩)
    ⟨true, "authenticated"⟩ (by decide) rfl

theorem handleAuth_expiry_spec_witness :
    handleAuth
      ⟨fun _ => true,
       fun s => if s = "CAP" then
         some ⟨"c1", "ISS", 1, [["p", "PK"], ["expiry", "50"]]⟩ else none,
       fun s => if s = "50" then some 50 else none, 100000⟩
      [("s1", ⟨none, [], "ch"⟩)] "s1"
      ⟨"a1", "PK", 22242, [["challenge", "ch"], ["cap", "CAP"]]⟩ =
      ([("s1", ⟨none, [], "ch"⟩)], ⟨false, "cap expired"⟩) ∧
    (handleAuth
      ⟨fun _ => true,
       fun s => if s = "CAP" then
         some ⟨"c1", "ISS", 1, [["p", "PK"], ["expiry", "50"]]⟩ else none,
       fun s => if s = "50" then some 50 else none, 30000⟩
      [("s1", ⟨none, [], "ch"⟩)] "s1"
      ⟨"a1", "PK", 22242, [["challenge", "ch"], ["cap", "CAP"]]⟩).2.ok =
      true := by
  constructor
  · exact (handleAuth_expiry_spec
      ⟨fun _ => true,
       fun s => if s = "CAP" then
         some ⟨"c1", "ISS", 1, [["p", "PK"], ["expiry", "50"]]⟩ else none,
       fun s => if s = "50" then some 50 else none, 100000⟩
      [("s1", ⟨none, [], "ch"⟩)] "s1"
      ⟨"a1", "PK", 22242, [["challenge", "ch"], ["cap", "CAP"]]⟩
      ⟨none, [], "ch"⟩ "CAP" ⟨"c1", "ISS", 1, [["p", "PK"], ["expiry", "50"]]⟩
      (by decide) (by decide) (by decide) (by decide) (by decide) (by decide)
      (by decide) (by decide)).1 "50" 50
      (by decide) (by decide) (by decide) (by decide)
  · exact (handleAuth_expiry_spec
      ⟨fun _ => true,
       fun s => if s = "CAP" then
         some ⟨"c1", "ISS", 1, [["p", "PK"], ["expiry", "50"]]⟩ else none,
       fun s => if s = "50" then some 50 else none, 30000⟩
      [("s1", ⟨none, [], "ch"⟩)] "s1"
      ⟨"a1", "PK", 22242, [["challenge", "ch"], ["cap", "CAP"]]⟩
      ⟨none, [], "ch"⟩ "CAP" ⟨"c1", "ISS", 1, [["p", "PK"], ["expiry", "50"]]⟩
      (by decide) (by decide) (by decide) (by decide) (by decide) (by decide)
      (by decide) (by decide)).2.2 "50" 50
      (by decide) (by decide) (by decide)

theorem handleAuth_failure_atomic_witness :
    (handleAuth ⟨fun _ => true, fun _ => none, fun _ => none, 0⟩
      [("s1", ⟨none, [], "ch"⟩)] "s1"
      ⟨"a2", "PK", 22242, [["challenge", "WRONG"]]⟩).1 =
      [("s1", ⟨none, [], "ch"⟩)] :=
  handleAuth_failure_atomic ⟨fun _ => true, fun _ => none, fun _ => none, 0⟩
    [("s1", ⟨none, [], "ch"⟩)] "s1"
    ⟨"a2", "PK", 22242, [["challenge", "WRONG"]]⟩
    (handleAuth ⟨fun _ => true, fun _ => none, fun _ => none, 0⟩
      [("s1", ⟨none, [], "ch"⟩)] "s1"
      ⟨"a2", "PK", 22242, [["challenge", "WRONG"]]⟩).1
    (handleAuth ⟨fun _ => true, fun _ => none, fun _ => none, 0⟩
      [("s1", ⟨none, [], "ch"⟩)] "s1"
      ⟨"a2", "PK", 22242, [["challenge", "WRONG"]]⟩).2
    rfl (by decide)
